import Mathlib

/-!
# Verification of the IPlantUML cell magic (`iplantuml/__init__.py`)

This file gives a shallow embedding of the single source file of the
repository: the `plantuml` IPython cell magic together with its two
renderer back ends `plantuml_exec` and `plantuml_web`, and the Python
standard-library path/URL helpers the source calls
(`os.path.basename`, `os.path.splitext`, `os.path.abspath`,
`urllib.parse.urlparse`).

The filesystem is modelled as an association list from paths to file
contents.  External effects (the renderer subprocess, the network
fetch, the random UUID) are parameters of the embedded functions: a
`RenderBehavior` records whether the launched subprocess exits with
status zero and which files it creates, `fetch` gives the content
obtained by `urlretrieve`, and `uuid` is the string `str(uuid.uuid4())`
produced for this invocation.  Python exceptions are modelled by the
`PyErr` type, and the `try/finally` block of the magic is translated
with Python's semantics: the `finally` clause always runs, and an
exception raised inside it replaces the pending result.
-/

set_option autoImplicit false

namespace IPlantUML

/-- The filesystem: a finite map from path strings to file contents,
kept canonical (at most one entry per path). -/
def FS : Type := List (String × String)

instance : DecidableEq FS := by
  unfold FS
  infer_instance

/-- Contents of the file at path `p`, if it exists. -/
def FS.read (fs : FS) (p : String) : Option String :=
  (List.find? (fun e => e.1 = p) fs).map (fun e => e.2)

/-- `os.path.exists(p)` over the modelled filesystem. -/
def FS.existsPath (fs : FS) (p : String) : Bool :=
  List.any fs (fun e => e.1 = p)

/-- Create or overwrite the file at path `p` with contents `c`. -/
def FS.write (fs : FS) (p c : String) : FS :=
  (p, c) :: List.filter (fun e => ¬ e.1 = p) fs

/-- `os.unlink(p)`: remove the file at path `p`. -/
def FS.unlink (fs : FS) (p : String) : FS :=
  List.filter (fun e => ¬ e.1 = p) fs

/-- Python exceptions that the embedded code can raise. -/
inductive PyErr : Type where
  /-- `subprocess.CalledProcessError`, raised by `check_call` on a
  non-zero exit status. -/
  | calledProcessError : PyErr
  /-- `NameError`, raised on reading a local variable that was never
  bound. -/
  | nameError : PyErr
  /-- Raised by `IPython.display.SVG` when the file it is asked to
  display does not exist. -/
  | fileNotFoundError : PyErr
  /-- `IndexError`, raised by an out-of-range subscript. -/
  | indexError : PyErr
deriving DecidableEq

/-- `os.path.basename`: the part of the path after the last `/`. -/
def basename (s : String) : String :=
  ⟨(List.takeWhile (fun c => ¬ c = '/') s.data.reverse).reverse⟩

/-- `os.path.splitext` for inputs that contain no `/` (the source only
applies it to the result of `os.path.basename`): split off the
extension at the last dot, unless every character before that dot is
itself a dot (so `.bashrc` has no extension). -/
def splitext (s : String) : String × String :=
  match List.dropWhile (fun c => ¬ c = '.') s.data.reverse with
  | [] => (s, "")
  | _ :: stemRev =>
    if List.any stemRev (fun c => ¬ c = '.') then
      (⟨stemRev.reverse⟩,
       ⟨'.' :: (List.takeWhile (fun c => ¬ c = '.') s.data.reverse).reverse⟩)
    else
      (s, "")

/-- `os.path.splitext(os.path.basename(f))[0] + ".svg"`: the output
path both back ends report for the input file `f` (source lines 52 and
69). -/
def svgName (f : String) : String :=
  (splitext (basename f)).1 ++ ".svg"

/-- `os.path.isabs`: the path begins with `/`. -/
def isabs (s : String) : Bool :=
  s.data.head? = some '/'

/-- The number of leading slashes `posixpath.normpath` preserves: one
when the path starts with `/`, except that exactly two (not three or
more) leading slashes are kept as two. -/
def initialSlashes (l : List Char) : Nat :=
  if l.head? = some '/' then
    if (l.drop 1).head? = some '/' then
      if (l.drop 2).head? = some '/' then 1 else 2
    else 1
  else 0

/-- `str.split('/')` on the characters of a path: the list of
components between slashes (empty components included, as in
Python). -/
def splitSlash : List Char → List String
  | [] => [""]
  | c :: t =>
    if c = '/' then "" :: splitSlash t
    else
      match splitSlash t with
      | [] => [⟨[c]⟩]
      | s :: rest => ⟨c :: s.data⟩ :: rest

/-- One step of `posixpath.normpath`'s component loop. -/
def normStep (slashes : Nat) (acc : List String) (comp : String) : List String :=
  if comp = "" ∨ comp = "." then acc
  else if ¬ comp = ".." ∨ (slashes = 0 ∧ acc = []) ∨ acc.getLast? = some ".." then
    acc ++ [comp]
  else if ¬ acc = [] then acc.dropLast
  else acc

/-- `posixpath.normpath`: collapse `//`, `.` and `..` components. -/
def normpath (path : String) : String :=
  if path = "" then "."
  else
    let slashes := initialSlashes path.data
    let comps := splitSlash path.data
    let newComps := comps.foldl (normStep slashes) []
    let res : String := ⟨List.replicate slashes '/'⟩ ++ String.intercalate "/" newComps
    if res = "" then "." else res

/-- `a.endswith('/')`: the last character is a slash. -/
def endsWithSlash (a : String) : Bool :=
  a.data.getLast? = some '/'

/-- `os.path.join(a, b)` for two components, as `posixpath.join`
defines it. -/
def joinPath (a b : String) : String :=
  if isabs b then b
  else if a = "" ∨ endsWithSlash a = true then a ++ b
  else a ++ "/" ++ b

/-- `os.path.abspath(path)` with the working directory `cwd` made
explicit: join with `cwd` when relative, then normalise. -/
def abspath (cwd path : String) : String :=
  if isabs path then normpath path else normpath (joinPath cwd path)

/-- The parts of `urllib.parse.urlparse`'s result that the source
reads: `scheme` and `path` (plus the `netloc` needed to compute the
path correctly). -/
structure Url : Type where
  scheme : String
  netloc : String
  path : String
deriving DecidableEq

/-- Characters allowed in a URL scheme. -/
def schemeChar (c : Char) : Bool :=
  c.isAlphanum ∨ c = '+' ∨ c = '-' ∨ c = '.'

/-- `urllib.parse.urlparse`, modelled for the fields the source reads:
a leading `<letters>:` prefix of valid scheme characters is the
(lowercased) scheme; a following `//` introduces the netloc, read up
to the next `/`, `?` or `#`; the path is the rest up to the first `#`
or `?`. -/
def urlparse (s : String) : Url :=
  let l := s.data
  let before := List.takeWhile (fun c => ¬ c = ':') l
  let rest := List.dropWhile (fun c => ¬ c = ':') l
  let schemeRem : String × List Char :=
    match rest with
    | [] => ("", l)
    | _ :: tl =>
      if ¬ before = [] ∧ (before.head?.map Char.isAlpha).getD false = true
          ∧ List.all before schemeChar then
        (⟨before.map Char.toLower⟩, tl)
      else ("", l)
  let pathOf : List Char → String := fun cs =>
    ⟨List.takeWhile (fun c => ¬ c = '?')
      (List.takeWhile (fun c => ¬ c = '#') cs)⟩
  match schemeRem with
  | (scheme, rem) =>
    match rem with
    | '/' :: '/' :: r =>
      { scheme := scheme
        netloc := ⟨List.takeWhile (fun c => ¬ c = '/' ∧ ¬ c = '?' ∧ ¬ c = '#') r⟩
        path := pathOf (List.dropWhile (fun c => ¬ c = '/' ∧ ¬ c = '?' ∧ ¬ c = '#') r) }
    | _ => { scheme := scheme, netloc := "", path := pathOf rem }

/-- `PLANTUMLPATH`, source line 31. -/
def PLANTUMLPATH : String := "/usr/local/bin/plantuml.jar"

/-- The parsed flags of one invocation of the magic, as `argparse`
yields them: each flag is `None` when absent, or the (possibly empty)
string supplied for it. -/
structure Args : Type where
  file : Option String
  jar : Option String
  name : Option String
  plantuml_path : Option String
deriving DecidableEq

/-- Python truthiness of an optional string: `None` and `""` are
falsy. -/
def pyTruthy : Option String → Bool
  | none => false
  | some s => ¬ s.isEmpty

/-- What the external renderer subprocess does when launched: whether
it exits with status zero, and which files it writes before
exiting. -/
structure RenderBehavior : Type where
  ok : Bool
  created : List (String × String)

/-- Apply the renderer subprocess's file writes to the filesystem. -/
def applyCreated (beh : RenderBehavior) (fs : FS) : FS :=
  beh.created.foldl (fun a e => a.write e.1 e.2) fs

/-- `plantuml_exec` (source lines 34-52): build the `java -jar`
command line, run it with `check_call` (which raises on a non-zero
exit), and report one `.svg` output path per input file.  The result
is the command line launched, the filesystem after the subprocess ran,
and the return value or exception of the Python call. -/
def plantuml_exec (beh : RenderBehavior) (fs : FS) (file_names : List String)
    (plantuml_path : String) : List String × FS × Except PyErr (List String) :=
  let cmd := ["java", "-splash:no", "-jar", plantuml_path, "-tsvg"] ++ file_names
  (cmd, applyCreated beh fs,
    if beh.ok then Except.ok (file_names.map svgName)
    else Except.error PyErr.calledProcessError)

/-- `plantuml_web` (source lines 54-69): identical to `plantuml_exec`
but launching the `plantweb` command line. -/
def plantuml_web (beh : RenderBehavior) (fs : FS) (file_names : List String) :
    List String × FS × Except PyErr (List String) :=
  let cmd := ["plantweb", "--format", "auto"] ++ file_names
  (cmd, applyCreated beh fs,
    if beh.ok then Except.ok (file_names.map svgName)
    else Except.error PyErr.calledProcessError)

/-- The input-resolution phase of the magic (source lines 89-105):
the chosen `uml_path`, the final value of `retain_uml`, and the
filesystem after any write or fetch. -/
structure ResolveOut : Type where
  uml_path : String
  retain_uml : Bool
  fs : FS

/-- Source lines 89-105: pick `base_name`, then either write the cell
text to `<base_name>.uml`, use a local/empty-scheme file reference in
place (setting `retain_uml`), or fetch a network reference into
`<base_name>.uml`. -/
def resolveInput (uuid : String) (fetch : String → String) (args : Args)
    (cell : String) (fs0 : FS) : ResolveOut :=
  let retain0 := args.name.isSome
  let base_name := if pyTruthy args.name then args.name.getD "" else uuid
  if !pyTruthy args.file then
    let p := base_name ++ ".uml"
    { uml_path := p, retain_uml := retain0, fs := fs0.write p cell }
  else
    let location := args.file.getD ""
    let url := urlparse location
    if url.scheme = "" ∨ url.scheme = "file" then
      { uml_path := url.path, retain_uml := true, fs := fs0 }
    else
      let p := base_name ++ ".uml"
      { uml_path := p, retain_uml := retain0, fs := fs0.write p (fetch location) }

/-- Source line 108: choose the back end by the truthiness of
`args.jar or args.plantuml_path`, and run it on the single
`uml_path`. -/
def renderDispatch (cwd : String) (beh : RenderBehavior) (args : Args)
    (uml_path : String) (fs : FS) : List String × FS × Except PyErr (List String) :=
  if !(pyTruthy args.jar || pyTruthy args.plantuml_path) then
    plantuml_web beh fs [uml_path]
  else
    plantuml_exec beh fs [uml_path]
      (abspath cwd (if pyTruthy args.plantuml_path then args.plantuml_path.getD ""
                    else PLANTUMLPATH))

/-- The value returned on success: `IPython.display.SVG` with a
`filename`, which reads the file's data at construction time. -/
structure SVGObj : Type where
  filename : String
  data : String
deriving DecidableEq

/-- The `finally` clause, source lines 112-113: first unlink the UML
file unless retained, then (unless the SVG is retained — the `and`
short-circuits) read `svg_path`, raising `NameError` when it was never
bound, and unlink it when it exists. -/
def finallyClause (retain_uml retain_svg : Bool) (uml_path : String)
    (svg_path : Option String) (fs : FS) : FS × Option PyErr :=
  let fs1 := if !retain_uml && fs.existsPath uml_path then fs.unlink uml_path else fs
  if retain_svg then (fs1, none)
  else
    match svg_path with
    | none => (fs1, some PyErr.nameError)
    | some sp => (if fs1.existsPath sp then fs1.unlink sp else fs1, none)

/-- The observable outcome of one invocation of the magic: the value
returned or exception raised, the final filesystem, and the command
lines launched. -/
structure MagicResult : Type where
  ret : Except PyErr SVGObj
  fs : FS
  calls : List (List String)

/-- The exception an invocation raised, if any. -/
def MagicResult.raised (m : MagicResult) : Option PyErr :=
  match m.ret with
  | Except.error e => some e
  | Except.ok _ => none

/-- Whether an invocation returned normally. -/
def MagicResult.returned (m : MagicResult) : Bool :=
  match m.ret with
  | Except.error _ => false
  | Except.ok _ => true

/-- The `plantuml` magic, source lines 71-113, for a fixed parsed
`args` and cell text: resolve the input, dispatch the renderer inside
`try`, bind `svg_path` and build the `SVG` object on success, then run
the `finally` clause; an exception raised by the `finally` clause
replaces the pending result. -/
def plantuml (cwd uuid : String) (fetch : String → String) (beh : RenderBehavior)
    (args : Args) (cell : String) (fs0 : FS) : MagicResult :=
  let retain_svg := args.name.isSome
  let r := resolveInput uuid fetch args cell fs0
  let d := renderDispatch cwd beh args r.uml_path r.fs
  let cmd := d.1
  let fs2 := d.2.1
  let tryOut : Option String × Except PyErr SVGObj :=
    match d.2.2 with
    | Except.error e => (none, Except.error e)
    | Except.ok output =>
      match output.head? with
      | none => (none, Except.error PyErr.indexError)
      | some sp =>
        match fs2.read sp with
        | some dat => (some sp, Except.ok { filename := sp, data := dat })
        | none => (some sp, Except.error PyErr.fileNotFoundError)
  let fin := finallyClause r.retain_uml retain_svg r.uml_path tryOut.1 fs2
  { ret := match fin.2 with
      | some e => Except.error e
      | none => tryOut.2
    fs := fin.1
    calls := [cmd] }

end IPlantUML

namespace IPlantUML

/-! ## Basic filesystem lemmas -/

theorem FS.existsPath_filter (fs : FS) (p : String) (q : String × String → Bool) :
    FS.existsPath (List.filter q fs) p =
      List.any fs (fun e => q e && decide (e.1 = p)) := by
  induction fs with
  | nil => rfl
  | cons e t ih =>
    rw [List.filter_cons]
    by_cases h : q e = true
    · rw [if_pos h]
      simp only [FS.existsPath, List.any_cons] at *
      rw [ih, h, Bool.true_and]
    · have h' : q e = false := by simpa using h
      rw [if_neg h]
      simp only [FS.existsPath, List.any_cons] at *
      rw [ih, h', Bool.false_and, Bool.false_or]

theorem FS.existsPath_unlink_self (fs : FS) (p : String) :
    (fs.unlink p).existsPath p = false := by
  unfold FS.unlink
  rw [FS.existsPath_filter]
  apply List.any_eq_false.2
  intro e _
  by_cases h : e.1 = p <;> simp [h]

theorem FS.existsPath_unlink_ne (fs : FS) (p q : String) (h : ¬ q = p) :
    (fs.unlink q).existsPath p = fs.existsPath p := by
  unfold FS.unlink
  rw [FS.existsPath_filter]
  unfold FS.existsPath
  induction fs with
  | nil => rfl
  | cons e t ih =>
    simp only [List.any_cons, ih]
    by_cases hep : e.1 = p
    · have hq : ¬ e.1 = q := fun hh => h (by rw [← hh, hep])
      have d1 : decide (¬ e.1 = q) = true := by simpa using hq
      have d2 : decide (e.1 = p) = true := by simpa using hep
      rw [d1, d2, Bool.true_and]
    · have d2 : decide (e.1 = p) = false := by simpa using hep
      rw [d2, Bool.and_false]

theorem FS.existsPath_unlink_of_not (fs : FS) (p q : String)
    (h : fs.existsPath p = false) : (fs.unlink q).existsPath p = false := by
  by_cases hq : q = p
  · subst hq
    exact FS.existsPath_unlink_self fs q
  · rw [FS.existsPath_unlink_ne fs p q hq]
    exact h

theorem FS.existsPath_write (fs : FS) (p q c : String) :
    (fs.write q c).existsPath p = (decide (q = p) || (fs.unlink q).existsPath p) := by
  simp [FS.write, FS.unlink, FS.existsPath, List.any_cons]

theorem FS.existsPath_write_self (fs : FS) (p c : String) :
    (fs.write p c).existsPath p = true := by
  rw [FS.existsPath_write]
  simp

theorem FS.existsPath_write_mono (fs : FS) (p q c : String)
    (h : fs.existsPath p = true) : (fs.write q c).existsPath p = true := by
  rw [FS.existsPath_write]
  by_cases hq : q = p
  · simp [hq]
  · rw [FS.existsPath_unlink_ne fs p q hq, h]
    simp

theorem FS.read_write_self (fs : FS) (p c : String) :
    (fs.write p c).read p = some c := by
  simp [FS.write, FS.read, List.find?]

theorem existsPath_applyCreated_mono (beh : RenderBehavior) (fs : FS) (p : String)
    (h : fs.existsPath p = true) : (applyCreated beh fs).existsPath p = true := by
  unfold applyCreated
  induction beh.created generalizing fs with
  | nil => exact h
  | cons e t ih =>
    exact ih (fs.write e.1 e.2) (FS.existsPath_write_mono fs p e.1 e.2 h)

/-! ## Lemmas about the `finally` clause -/

theorem FS.existsPath_condUnlink (fs : FS) (p : String) :
    ((if fs.existsPath p then fs.unlink p else fs : FS)).existsPath p = false := by
  cases h : fs.existsPath p with
  | true => simpa [h] using FS.existsPath_unlink_self fs p
  | false => simp only [h, Bool.false_eq_true, if_false]

/-- When `retain_uml` is false, the `finally` clause always removes the
UML file, whatever else it does. -/
theorem finallyClause_uml_removed (rs : Bool) (up : String) (sp : Option String)
    (fs : FS) :
    ((finallyClause false rs up sp fs).1).existsPath up = false := by
  unfold finallyClause
  simp only [Bool.not_false, Bool.true_and]
  have h1 := FS.existsPath_condUnlink fs up
  cases rs with
  | true => simpa using h1
  | false =>
    cases sp with
    | none => simpa using h1
    | some s =>
      simp only [Bool.false_eq_true, if_false]
      cases h2 : ((if fs.existsPath up then fs.unlink up else fs : FS)).existsPath s with
      | true =>
        simpa [h2] using
          FS.existsPath_unlink_of_not (if fs.existsPath up then fs.unlink up else fs) up s h1
      | false =>
        simp only [h2, Bool.false_eq_true, if_false]
        exact h1

/-- When `retain_svg` is false and `svg_path` was bound, the `finally`
clause removes the SVG file. -/
theorem finallyClause_svg_removed (ru : Bool) (up s : String) (fs : FS) :
    ((finallyClause ru false up (some s) fs).1).existsPath s = false := by
  unfold finallyClause
  simp only [Bool.false_eq_true, if_false]
  exact FS.existsPath_condUnlink _ s

/-- When both retain flags are set, the `finally` clause does nothing. -/
theorem finallyClause_retained (up : String) (sp : Option String) (fs : FS) :
    finallyClause true true up sp fs = (fs, none) := by
  simp [finallyClause]

/-- When `retain_svg` is false and `svg_path` was never bound, the
`finally` clause raises `NameError`. -/
theorem finallyClause_err_of_unbound (ru : Bool) (up : String) (fs : FS) :
    (finallyClause ru false up none fs).2 = some PyErr.nameError := by
  cases ru <;> simp [finallyClause]

/-- When `retain_svg` is true, the `finally` clause never raises. -/
theorem finallyClause_no_err_of_retained (ru : Bool) (up : String)
    (sp : Option String) (fs : FS) :
    (finallyClause ru true up sp fs).2 = none := by
  cases ru <;> simp [finallyClause]

/-- When `retain_svg` is false but `svg_path` was bound, the `finally`
clause never raises. -/
theorem finallyClause_no_err_of_bound (ru : Bool) (up s : String) (fs : FS) :
    (finallyClause ru false up (some s) fs).2 = none := by
  cases ru <;> simp [finallyClause]

/-- With `retain_uml` set, the `finally` clause touches no path other
than the one `svg_path` holds. -/
theorem finallyClause_frame (up p : String) (sp : Option String) (fs : FS)
    (hsp : ∀ s, sp = some s → ¬ s = p) :
    ((finallyClause true false up sp fs).1).existsPath p = fs.existsPath p := by
  unfold finallyClause
  simp only [Bool.not_true, Bool.false_and, Bool.false_eq_true, if_false]
  cases sp with
  | none => simp
  | some s =>
    have hne := hsp s rfl
    cases h : fs.existsPath s with
    | true => simp [h, FS.existsPath_unlink_ne fs p s hne]
    | false => simp [h]

end IPlantUML

namespace IPlantUML

/-! ## Structural lemmas about the magic -/

/-- The command line `renderDispatch` launches. -/
theorem renderDispatch_cmd (cwd : String) (beh : RenderBehavior) (args : Args)
    (up : String) (fs : FS) :
    (renderDispatch cwd beh args up fs).1 =
      if !(pyTruthy args.jar || pyTruthy args.plantuml_path) then
        ["plantweb", "--format", "auto", up]
      else
        ["java", "-splash:no", "-jar",
          abspath cwd (if pyTruthy args.plantuml_path then args.plantuml_path.getD ""
                       else PLANTUMLPATH),
          "-tsvg", up] := by
  unfold renderDispatch plantuml_web plantuml_exec
  cases h : (!(pyTruthy args.jar || pyTruthy args.plantuml_path)) <;> simp [h]

/-- Evaluating the whole magic: the dispatch always updates the
filesystem with the renderer's writes and reports `[svgName uml_path]`
on success, so the invocation is the composition of `resolveInput`,
the renderer's writes, the `try` body and the `finally` clause. -/
theorem plantuml_unfold (cwd uuid : String) (fetch : String → String)
    (beh : RenderBehavior) (args : Args) (cell : String) (fs0 : FS) :
    plantuml cwd uuid fetch beh args cell fs0 =
      (fun r fs2 =>
        (fun fin =>
          { ret :=
              match fin.2 with
              | some e => Except.error e
              | none =>
                if beh.ok then
                  match fs2.read (svgName r.uml_path) with
                  | some dat => Except.ok { filename := svgName r.uml_path, data := dat }
                  | none => Except.error PyErr.fileNotFoundError
                else Except.error PyErr.calledProcessError
            fs := fin.1
            calls := [(renderDispatch cwd beh args r.uml_path r.fs).1] })
        (finallyClause r.retain_uml args.name.isSome r.uml_path
          (if beh.ok then some (svgName r.uml_path) else none) fs2))
      (resolveInput uuid fetch args cell fs0)
      (applyCreated beh (resolveInput uuid fetch args cell fs0).fs) := by
  unfold plantuml renderDispatch plantuml_web plantuml_exec
  cases hw : (!(pyTruthy args.jar || pyTruthy args.plantuml_path)) <;>
    cases hok : beh.ok <;>
      simp only [hw, hok, Bool.false_eq_true, Bool.true_eq_false, if_true, if_false,
        List.map, List.head?] <;>
    cases hr : (applyCreated beh (resolveInput uuid fetch args cell fs0).fs).read
        (svgName (resolveInput uuid fetch args cell fs0).uml_path) <;>
      simp [hr]

end IPlantUML

namespace IPlantUML

/-! ## Lemmas about the path helpers -/

/-- Every character of `basename f` is a non-slash character of the
input. -/
theorem mem_basename (f : String) (c : Char) (hc : c ∈ (basename f).data) :
    c ∈ f.data ∧ ¬ c = '/' := by
  unfold basename at hc
  have h1 : c ∈ List.takeWhile (fun c => ¬ c = '/') f.data.reverse :=
    List.mem_reverse.1 hc
  have h2 : c ∈ f.data.reverse :=
    (List.takeWhile_sublist (fun c => ¬ c = '/')).mem h1
  refine ⟨List.mem_reverse.1 h2, ?_⟩
  simpa using List.mem_takeWhile_imp h1

/-- The stem produced by `splitext` only uses characters of its
input. -/
theorem mem_splitext_fst (s : String) (c : Char) (hc : c ∈ ((splitext s).1).data) :
    c ∈ s.data := by
  unfold splitext at hc
  split at hc
  · exact hc
  · rename_i d stemRev hdw
    split at hc
    · have h1 : c ∈ stemRev := List.mem_reverse.1 hc
      have hsub : List.Sublist stemRev s.data.reverse := by
        have h2 := List.dropWhile_sublist (p := fun c => ¬ c = '.') (l := s.data.reverse)
        rw [hdw] at h2
        exact (List.sublist_cons_self d stemRev).trans h2
      exact List.mem_reverse.1 (hsub.mem h1)
    · exact hc

/-- The `.svg` output path both back ends report lies in the current
directory: it contains no slash. -/
theorem svgName_no_slash (f : String) (c : Char) (hc : c ∈ (svgName f).data) :
    ¬ c = '/' := by
  unfold svgName at hc
  rw [String.data_append] at hc
  rcases List.mem_append.1 hc with h1 | h2
  · exact (mem_basename f c (mem_splitext_fst (basename f) c h1)).2
  · have h3 : c = '.' ∨ c = 's' ∨ c = 'v' ∨ c = 'g' := by simpa using h2
    rcases h3 with rfl | rfl | rfl | rfl <;> decide

/-- A list all of whose elements satisfy `p` is its own
`takeWhile`. -/
theorem takeWhile_eq_self_of_all {α : Type} (p : α → Bool) (l : List α)
    (h : ∀ c ∈ l, p c = true) : List.takeWhile p l = l := by
  induction l with
  | nil => rfl
  | cons a t ih =>
    rw [List.takeWhile_cons_of_pos (h a (List.mem_cons_self a t))]
    rw [ih (fun c hcmem => h c (List.mem_cons_of_mem a hcmem))]

/-- `basename` is the identity on strings without a slash. -/
theorem basename_of_no_slash (s : String) (h : ∀ c ∈ s.data, ¬ c = '/') :
    basename s = s := by
  unfold basename
  rw [takeWhile_eq_self_of_all _ _ (fun c hcmem => by
    simpa using h c (List.mem_reverse.1 hcmem))]
  rw [List.reverse_reverse]

/-- `splitext` splits `<n>.uml` into `n` and `.uml` whenever `n` has a
character other than a dot. -/
theorem splitext_append_uml (n : String)
    (hany : List.any n.data (fun c => ¬ c = '.') = true) :
    splitext (n ++ ".uml") = (n, ".uml") := by
  unfold splitext
  have hdata : (n ++ ".uml").data.reverse = 'l' :: 'm' :: 'u' :: '.' :: n.data.reverse := by
    rw [String.data_append, List.reverse_append]
    rfl
  have hdrop : List.dropWhile (fun c => ¬ c = '.') (n ++ ".uml").data.reverse =
      '.' :: n.data.reverse := by
    rw [hdata, List.dropWhile_cons_of_pos (by decide), List.dropWhile_cons_of_pos (by decide),
      List.dropWhile_cons_of_pos (by decide), List.dropWhile_cons_of_neg (by decide)]
  have htake : List.takeWhile (fun c => ¬ c = '.') (n ++ ".uml").data.reverse =
      ['l', 'm', 'u'] := by
    rw [hdata, List.takeWhile_cons_of_pos (by decide), List.takeWhile_cons_of_pos (by decide),
      List.takeWhile_cons_of_pos (by decide), List.takeWhile_cons_of_neg (by decide)]
  rw [hdrop, htake]
  have hrev : List.any n.data.reverse (fun c => ¬ c = '.') = true := by
    rw [List.any_reverse]
    exact hany
  simp only [hrev, if_true, List.reverse_reverse]
  rfl

/-- For a persisted name `n` with no slash and some non-dot character,
the `.svg` path derived from `<n>.uml` is `<n>.svg`. -/
theorem svgName_name_uml (n : String)
    (hs : ∀ c ∈ n.data, ¬ c = '/')
    (hany : List.any n.data (fun c => ¬ c = '.') = true) :
    svgName (n ++ ".uml") = n ++ ".svg" := by
  unfold svgName
  have hb : basename (n ++ ".uml") = n ++ ".uml" := by
    apply basename_of_no_slash
    intro c hcmem
    rw [String.data_append] at hcmem
    rcases List.mem_append.1 hcmem with h1 | h2
    · exact hs c h1
    · have h3 : c = '.' ∨ c = 'u' ∨ c = 'm' ∨ c = 'l' := by simpa using h2
      rcases h3 with rfl | rfl | rfl | rfl <;> decide
  rw [hb, splitext_append_uml n hany]

end IPlantUML

namespace IPlantUML

/-! ## `abspath` produces absolute paths -/

theorem eq_empty_of_data_nil (a : String) (h : a.data = []) : a = "" := by
  cases a with
  | mk l =>
    cases h
    rfl

theorem ne_empty_of_isabs (s : String) (h : isabs s = true) : ¬ s = "" := by
  intro he
  subst he
  simp [isabs] at h

theorem isabs_append (a b : String) (ha : ¬ a = "") : isabs (a ++ b) = isabs a := by
  unfold isabs
  rw [String.data_append]
  cases hd : a.data with
  | nil => exact absurd (eq_empty_of_data_nil a hd) ha
  | cons c t => simp [hd]

theorem isabs_mk_cons (l : List Char) (j : String) :
    isabs (String.mk ('/' :: l) ++ j) = true := by
  unfold isabs
  rw [String.data_append]
  rfl

theorem mk_cons_append_ne_empty (c : Char) (l : List Char) (j : String) :
    ¬ (String.mk (c :: l) ++ j) = "" := by
  intro hcontra
  have h := congrArg String.data hcontra
  rw [String.data_append] at h
  simp at h

theorem initialSlashes_pos (l : List Char) (h : l.head? = some '/') :
    ∃ k, initialSlashes l = k + 1 := by
  unfold initialSlashes
  rw [if_pos h]
  by_cases h1 : (l.drop 1).head? = some '/'
  · rw [if_pos h1]
    by_cases h2 : (l.drop 2).head? = some '/'
    · rw [if_pos h2]
      exact ⟨0, rfl⟩
    · rw [if_neg h2]
      exact ⟨1, rfl⟩
  · rw [if_neg h1]
    exact ⟨0, rfl⟩

theorem isabs_normpath (p : String) (h : isabs p = true) :
    isabs (normpath p) = true := by
  have hne : ¬ p = "" := ne_empty_of_isabs p h
  obtain ⟨k, hk⟩ : ∃ k, initialSlashes p.data = k + 1 :=
    initialSlashes_pos p.data (by simpa [isabs] using h)
  simp only [normpath, if_neg hne, hk, List.replicate_succ]
  rw [if_neg (mk_cons_append_ne_empty '/' _ _)]
  exact isabs_mk_cons _ _

theorem isabs_joinPath (a b : String) (ha : isabs a = true) :
    isabs (joinPath a b) = true := by
  unfold joinPath
  by_cases hb : isabs b = true
  · rw [if_pos hb]
    exact hb
  · rw [if_neg hb]
    have hane : ¬ a = "" := ne_empty_of_isabs a ha
    by_cases h2 : a = "" ∨ endsWithSlash a = true
    · rw [if_pos h2, isabs_append a b hane]
      exact ha
    · rw [if_neg h2]
      have h3 : ¬ (a ++ "/") = "" := by
        intro hcontra
        have hdat := congrArg String.data hcontra
        rw [String.data_append] at hdat
        simp at hdat
      rw [isabs_append (a ++ "/") b h3, isabs_append a "/" hane]
      exact ha

/-- `os.path.abspath` yields an absolute path whenever the working
directory is absolute. -/
theorem isabs_abspath (cwd p : String) (hcwd : isabs cwd = true) :
    isabs (abspath cwd p) = true := by
  unfold abspath
  by_cases hp : isabs p = true
  · rw [if_pos hp]
    exact isabs_normpath p hp
  · rw [if_neg hp]
    exact isabs_normpath _ (isabs_joinPath cwd p hcwd)

end IPlantUML

namespace IPlantUML

/-! ## Characterisation of the three input-resolution branches -/

/-- No (truthy) file flag: the cell text is written to
`<base_name>.uml`. -/
theorem resolveInput_no_file (uuid : String) (fetch : String → String) (args : Args)
    (cell : String) (fs0 : FS) (hfile : pyTruthy args.file = false) :
    resolveInput uuid fetch args cell fs0 =
      { uml_path := (if pyTruthy args.name then args.name.getD "" else uuid) ++ ".uml"
        retain_uml := args.name.isSome
        fs := fs0.write ((if pyTruthy args.name then args.name.getD "" else uuid) ++ ".uml")
          cell } := by
  simp only [resolveInput, hfile, Bool.not_false, if_true]

/-- A truthy file flag with local or empty scheme: the referenced path
is used in place and `retain_uml` is forced on. -/
theorem resolveInput_file_local (uuid : String) (fetch : String → String) (args : Args)
    (cell : String) (fs0 : FS) (hfile : pyTruthy args.file = true)
    (hsch : (urlparse (args.file.getD "")).scheme = "" ∨
      (urlparse (args.file.getD "")).scheme = "file") :
    resolveInput uuid fetch args cell fs0 =
      { uml_path := (urlparse (args.file.getD "")).path
        retain_uml := true
        fs := fs0 } := by
  simp only [resolveInput, hfile, Bool.not_true, Bool.false_eq_true, if_false]
  simp [hsch]

/-- A truthy file flag with a network scheme: the content is fetched
into `<base_name>.uml`. -/
theorem resolveInput_file_network (uuid : String) (fetch : String → String) (args : Args)
    (cell : String) (fs0 : FS) (hfile : pyTruthy args.file = true)
    (hsch : ¬ ((urlparse (args.file.getD "")).scheme = "" ∨
      (urlparse (args.file.getD "")).scheme = "file")) :
    resolveInput uuid fetch args cell fs0 =
      { uml_path := (if pyTruthy args.name then args.name.getD "" else uuid) ++ ".uml"
        retain_uml := args.name.isSome
        fs := fs0.write ((if pyTruthy args.name then args.name.getD "" else uuid) ++ ".uml")
          (fetch (args.file.getD "")) } := by
  simp only [resolveInput, hfile, Bool.not_true, Bool.false_eq_true, if_false]
  simp [hsch]

/-! ## Projections of a whole invocation -/

theorem plantuml_fs_eq (cwd uuid : String) (fetch : String → String)
    (beh : RenderBehavior) (args : Args) (cell : String) (fs0 : FS) :
    (plantuml cwd uuid fetch beh args cell fs0).fs =
      (finallyClause (resolveInput uuid fetch args cell fs0).retain_uml args.name.isSome
        (resolveInput uuid fetch args cell fs0).uml_path
        (if beh.ok then some (svgName (resolveInput uuid fetch args cell fs0).uml_path)
         else none)
        (applyCreated beh (resolveInput uuid fetch args cell fs0).fs)).1 := by
  rw [plantuml_unfold]

theorem plantuml_calls_eq (cwd uuid : String) (fetch : String → String)
    (beh : RenderBehavior) (args : Args) (cell : String) (fs0 : FS) :
    (plantuml cwd uuid fetch beh args cell fs0).calls =
      [(renderDispatch cwd beh args (resolveInput uuid fetch args cell fs0).uml_path
        (resolveInput uuid fetch args cell fs0).fs).1] := by
  rw [plantuml_unfold]

/-- On a non-zero renderer exit the magic raises: the subprocess error
for a named invocation, the `finally` clause's `NameError` for an
unnamed one. -/
theorem plantuml_ret_of_fail (cwd uuid : String) (fetch : String → String)
    (beh : RenderBehavior) (args : Args) (cell : String) (fs0 : FS)
    (hfail : beh.ok = false) :
    (plantuml cwd uuid fetch beh args cell fs0).ret =
      Except.error (if args.name.isSome then PyErr.calledProcessError
                    else PyErr.nameError) := by
  rw [plantuml_unfold]
  simp only [hfail, Bool.false_eq_true, if_false]
  cases hn : args.name.isSome
  · rw [finallyClause_err_of_unbound]
    rfl
  · rw [finallyClause_no_err_of_retained]
    rfl

end IPlantUML

namespace IPlantUML

/-! ## Claim theorems -/

/-- C1, counterexample: in an unnamed invocation whose renderer
subprocess exits non-zero after writing `u.svg`, the SVG file survives
the call, so the claimed removal on all exit paths fails. -/
theorem C1_cleanup_counterexample :
    (Args.mk none none none none).name = none ∧
    (plantuml "/w" "u" (fun _ => "") ⟨false, [("u.svg", "S")]⟩
      (Args.mk none none none none) "t" []).fs.existsPath "u.svg" = true := by
  decide

/-- C1 (amended): in an unnamed invocation, the UML source file is
removed on every exit path whenever it was not a retained local
reference, and the SVG output file is removed whenever the renderer
subprocess succeeded; on renderer failure the SVG cleanup line is
never reached. -/
theorem C1_cleanup_amended (cwd uuid : String) (fetch : String → String)
    (beh : RenderBehavior) (args : Args) (cell : String) (fs0 : FS)
    (hname : args.name = none) :
    ((resolveInput uuid fetch args cell fs0).retain_uml = false →
      (plantuml cwd uuid fetch beh args cell fs0).fs.existsPath
        (resolveInput uuid fetch args cell fs0).uml_path = false) ∧
    (beh.ok = true →
      (plantuml cwd uuid fetch beh args cell fs0).fs.existsPath
        (svgName (resolveInput uuid fetch args cell fs0).uml_path) = false) := by
  have hns : args.name.isSome = false := by
    rw [hname]
    rfl
  constructor
  · intro hru
    rw [plantuml_fs_eq, hru]
    exact finallyClause_uml_removed _ _ _ _
  · intro hok
    rw [plantuml_fs_eq, if_pos hok, hns]
    exact finallyClause_svg_removed _ _ _ _

theorem C1_cleanup_amended_witness :
    (plantuml "/w" "u" (fun _ => "") ⟨true, [("u.svg", "S")]⟩
      (Args.mk none none none none) "t" []).fs.existsPath "u.uml" = false ∧
    (plantuml "/w" "u" (fun _ => "") ⟨true, [("u.svg", "S")]⟩
      (Args.mk none none none none) "t" []).fs.existsPath "u.svg" = false :=
  ⟨(C1_cleanup_amended "/w" "u" (fun _ => "") ⟨true, [("u.svg", "S")]⟩
      (Args.mk none none none none) "t" [] rfl).1 (by decide),
   (C1_cleanup_amended "/w" "u" (fun _ => "") ⟨true, [("u.svg", "S")]⟩
      (Args.mk none none none none) "t" [] rfl).2 rfl⟩

/-- C2, counterexample: a jar flag supplied with the empty-string
value routes to the web back end, although the claim's "otherwise"
branch promises the local-jar back end whenever a jar flag value was
given. -/
theorem C2_routing_counterexample :
    (Args.mk none (some "") none none).jar = some "" ∧
    (plantuml "/w" "u" (fun _ => "") ⟨true, []⟩
      (Args.mk none (some "") none none) "t" []).calls =
      [["plantweb", "--format", "auto", "u.uml"]] := by
  decide

/-- C2 (amended): the dispatch is decided by truthiness — the web
back end is launched exactly when neither the jar flag nor the
plantuml-path flag carries a non-empty value, and the local-jar back
end otherwise. -/
theorem C2_dispatch_by_truthiness (cwd uuid : String) (fetch : String → String)
    (beh : RenderBehavior) (args : Args) (cell : String) (fs0 : FS) :
    (plantuml cwd uuid fetch beh args cell fs0).calls =
      [if !(pyTruthy args.jar || pyTruthy args.plantuml_path) then
        ["plantweb", "--format", "auto",
          (resolveInput uuid fetch args cell fs0).uml_path]
      else
        ["java", "-splash:no", "-jar",
          abspath cwd (if pyTruthy args.plantuml_path then args.plantuml_path.getD ""
                       else PLANTUMLPATH),
          "-tsvg", (resolveInput uuid fetch args cell fs0).uml_path]] := by
  rw [plantuml_calls_eq, renderDispatch_cmd]

/-- C5: a non-zero exit of the selected back end's subprocess makes
the magic raise: it does not return, and no SVG object is produced. -/
theorem C5_nonzero_exit_raises (cwd uuid : String) (fetch : String → String)
    (beh : RenderBehavior) (args : Args) (cell : String) (fs0 : FS)
    (hfail : beh.ok = false) :
    (plantuml cwd uuid fetch beh args cell fs0).returned = false ∧
    (plantuml cwd uuid fetch beh args cell fs0).raised.isSome = true := by
  unfold MagicResult.returned MagicResult.raised
  rw [plantuml_ret_of_fail cwd uuid fetch beh args cell fs0 hfail]
  exact ⟨rfl, rfl⟩

theorem C5_nonzero_exit_raises_witness :
    (plantuml "/w" "u" (fun _ => "") ⟨false, []⟩
      (Args.mk none none none none) "t" []).returned = false ∧
    (plantuml "/w" "u" (fun _ => "") ⟨false, []⟩
      (Args.mk none none none none) "t" []).raised.isSome = true :=
  C5_nonzero_exit_raises "/w" "u" (fun _ => "") ⟨false, []⟩
    (Args.mk none none none none) "t" [] rfl

/-- C9: routing is decided by the truthiness of the flag values — when
the jar and plantuml-path flags are absent or carry empty strings, the
web back end is launched even though a jar flag appeared on the
line. -/
theorem C9_truthiness_routing (cwd uuid : String) (fetch : String → String)
    (beh : RenderBehavior) (args : Args) (cell : String) (fs0 : FS)
    (hj : pyTruthy args.jar = false) (hp : pyTruthy args.plantuml_path = false) :
    (plantuml cwd uuid fetch beh args cell fs0).calls =
      [["plantweb", "--format", "auto",
        (resolveInput uuid fetch args cell fs0).uml_path]] := by
  rw [plantuml_calls_eq, renderDispatch_cmd]
  rw [hj, hp]
  rfl

theorem C9_truthiness_routing_witness :
    (plantuml "/w" "u" (fun _ => "") ⟨true, []⟩
      (Args.mk none (some "") none (some "")) "t" []).calls =
      [["plantweb", "--format", "auto", "u.uml"]] :=
  C9_truthiness_routing "/w" "u" (fun _ => "") ⟨true, []⟩
    (Args.mk none (some "") none (some "")) "t" [] rfl rfl

/-- C10, counterexample: in a named invocation the `finally` clause
short-circuits before reading `svg_path`, so a renderer failure
surfaces as the original `CalledProcessError`, not as the `NameError`
the claim predicts for every invocation whose back end raises. -/
theorem C10_named_failure_counterexample :
    (plantuml "/w" "u" (fun _ => "") ⟨false, []⟩
      (Args.mk none none (some "d") none) "t" []).raised =
        some PyErr.calledProcessError ∧
    ¬ (plantuml "/w" "u" (fun _ => "") ⟨false, []⟩
      (Args.mk none none (some "d") none) "t" []).raised =
        some PyErr.nameError := by
  decide

/-- C10 (amended): in an unnamed invocation whose back end raises
before `svg_path` is bound, the cleanup clause reads the unbound
variable and the caller sees `NameError` instead of the back end's
error, after the UML temp file (when not retained) has been
removed. -/
theorem C10_unnamed_failure_nameerror (cwd uuid : String) (fetch : String → String)
    (beh : RenderBehavior) (args : Args) (cell : String) (fs0 : FS)
    (hname : args.name = none) (hfail : beh.ok = false) :
    (plantuml cwd uuid fetch beh args cell fs0).raised = some PyErr.nameError ∧
    ((resolveInput uuid fetch args cell fs0).retain_uml = false →
      (plantuml cwd uuid fetch beh args cell fs0).fs.existsPath
        (resolveInput uuid fetch args cell fs0).uml_path = false) := by
  constructor
  · unfold MagicResult.raised
    rw [plantuml_ret_of_fail cwd uuid fetch beh args cell fs0 hfail, hname]
    rfl
  · intro hru
    rw [plantuml_fs_eq, hru]
    exact finallyClause_uml_removed _ _ _ _

theorem C10_unnamed_failure_nameerror_witness :
    (plantuml "/w" "u" (fun _ => "") ⟨false, []⟩
      (Args.mk none none none none) "t" []).raised = some PyErr.nameError ∧
    (plantuml "/w" "u" (fun _ => "") ⟨false, []⟩
      (Args.mk none none none none) "t" []).fs.existsPath "u.uml" = false :=
  ⟨(C10_unnamed_failure_nameerror "/w" "u" (fun _ => "") ⟨false, []⟩
      (Args.mk none none none none) "t" [] rfl rfl).1,
   (C10_unnamed_failure_nameerror "/w" "u" (fun _ => "") ⟨false, []⟩
      (Args.mk none none none none) "t" [] rfl rfl).2 (by decide)⟩

end IPlantUML

namespace IPlantUML

/-- C3, counterexample: an invocation named `d` whose renderer exits
non-zero without producing output leaves no `d.svg` behind, so the
claim that both files persist after every named invocation fails. -/
theorem C3_persistence_counterexample :
    (Args.mk none none (some "d") none).name = some "d" ∧
    (plantuml "/w" "u" (fun _ => "") ⟨false, []⟩
      (Args.mk none none (some "d") none) "t" []).fs.existsPath "d.svg" = false := by
  decide

/-- C3 (amended): for an inline (no file flag) invocation with a
non-empty name whose renderer run leaves `<name>.svg` on disk, both
`<name>.uml` and `<name>.svg` persist after the call. -/
theorem C3_named_persistence (cwd uuid : String) (fetch : String → String)
    (beh : RenderBehavior) (args : Args) (cell : String) (fs0 : FS) (n : String)
    (hname : args.name = some n) (hne : n.isEmpty = false)
    (hfile : pyTruthy args.file = false) (_hok : beh.ok = true)
    (hsvg : (applyCreated beh (resolveInput uuid fetch args cell fs0).fs).existsPath
      (n ++ ".svg") = true) :
    (plantuml cwd uuid fetch beh args cell fs0).fs.existsPath (n ++ ".uml") = true ∧
    (plantuml cwd uuid fetch beh args cell fs0).fs.existsPath (n ++ ".svg") = true := by
  have hns : args.name.isSome = true := by
    rw [hname]
    rfl
  have hbase : (if pyTruthy args.name then args.name.getD "" else uuid) = n := by
    rw [hname]
    simp [pyTruthy, hne]
  have hr : resolveInput uuid fetch args cell fs0 =
      { uml_path := n ++ ".uml", retain_uml := true,
        fs := fs0.write (n ++ ".uml") cell } := by
    rw [resolveInput_no_file uuid fetch args cell fs0 hfile, hbase, hns]
  rw [hr] at hsvg
  rw [plantuml_fs_eq, hr, hns]
  dsimp only
  rw [finallyClause_retained]
  constructor
  · exact existsPath_applyCreated_mono beh _ _
      (FS.existsPath_write_self fs0 (n ++ ".uml") cell)
  · exact hsvg

theorem C3_named_persistence_witness :
    (plantuml "/w" "u" (fun _ => "") ⟨true, [("d.svg", "S")]⟩
      (Args.mk none none (some "d") none) "t" []).fs.existsPath "d.uml" = true ∧
    (plantuml "/w" "u" (fun _ => "") ⟨true, [("d.svg", "S")]⟩
      (Args.mk none none (some "d") none) "t" []).fs.existsPath "d.svg" = true :=
  C3_named_persistence "/w" "u" (fun _ => "") ⟨true, [("d.svg", "S")]⟩
    (Args.mk none none (some "d") none) "t" [] "d" rfl rfl rfl rfl (by decide)

/-- C6: on a zero exit both back ends report, for each input file, the
path obtained by stripping the input's directory and replacing its
extension with `.svg`; the reported path contains no slash, so it lies
in the current directory. -/
theorem C6_output_svg_paths (beh : RenderBehavior) (fs : FS)
    (file_names : List String) (plantuml_path : String) (hok : beh.ok = true) :
    (plantuml_exec beh fs file_names plantuml_path).2.2 =
      Except.ok (file_names.map svgName) ∧
    (plantuml_web beh fs file_names).2.2 = Except.ok (file_names.map svgName) ∧
    ∀ f ∈ file_names,
      svgName f = (splitext (basename f)).1 ++ ".svg" ∧
      ∀ c ∈ (svgName f).data, ¬ c = '/' := by
  refine ⟨?_, ?_, ?_⟩
  · unfold plantuml_exec
    rw [if_pos hok]
  · unfold plantuml_web
    rw [if_pos hok]
  · intro f _
    exact ⟨rfl, fun c hc => svgName_no_slash f c hc⟩

theorem C6_output_svg_paths_witness :
    (plantuml_exec ⟨true, []⟩ [] ["/tmp/x.uml"] "/j").2.2 = Except.ok ["x.svg"] ∧
    (plantuml_web ⟨true, []⟩ [] ["/tmp/x.uml"]).2.2 = Except.ok ["x.svg"] :=
  ⟨(C6_output_svg_paths ⟨true, []⟩ [] ["/tmp/x.uml"] "/j" rfl).1,
   (C6_output_svg_paths ⟨true, []⟩ [] ["/tmp/x.uml"] "/j" rfl).2.1⟩

/-- C7, counterexample: a name flag carrying the empty string is a
supplied name, yet the cell text is written to `<uuid>.uml`, not to
`.uml` as the claim's naming rule dictates. -/
theorem C7_cell_write_counterexample :
    (Args.mk none none (some "") none).name = some "" ∧
    (plantuml "/w" "u" (fun _ => "") ⟨true, []⟩
      (Args.mk none none (some "") none) "body" []).fs.read ".uml" = none ∧
    (plantuml "/w" "u" (fun _ => "") ⟨true, []⟩
      (Args.mk none none (some "") none) "body" []).fs.read "u.uml" = some "body" := by
  decide

/-- C7 (amended): without a file flag the cell text is written
verbatim to `<name>.uml` when a non-empty name was supplied and to
`<uuid>.uml` otherwise, and the renderer command line dispatched
afterwards names exactly that file. -/
theorem C7_cell_written_verbatim (cwd uuid : String) (fetch : String → String)
    (beh : RenderBehavior) (args : Args) (cell : String) (fs0 : FS)
    (hfile : pyTruthy args.file = false) :
    (resolveInput uuid fetch args cell fs0).uml_path =
      (if pyTruthy args.name then args.name.getD "" else uuid) ++ ".uml" ∧
    (resolveInput uuid fetch args cell fs0).fs.read
      ((if pyTruthy args.name then args.name.getD "" else uuid) ++ ".uml") =
      some cell ∧
    ∀ c ∈ (plantuml cwd uuid fetch beh args cell fs0).calls,
      c.getLast? =
        some ((if pyTruthy args.name then args.name.getD "" else uuid) ++ ".uml") := by
  have hr := resolveInput_no_file uuid fetch args cell fs0 hfile
  refine ⟨by rw [hr], ?_, ?_⟩
  · rw [hr]
    exact FS.read_write_self fs0 _ cell
  · intro c hcmem
    rw [plantuml_calls_eq] at hcmem
    have hc : c = (renderDispatch cwd beh args
        (resolveInput uuid fetch args cell fs0).uml_path
        (resolveInput uuid fetch args cell fs0).fs).1 := by
      simpa using hcmem
    rw [hc, renderDispatch_cmd, hr]
    cases hcond : (!(pyTruthy args.jar || pyTruthy args.plantuml_path)) <;> rfl

theorem C7_cell_written_verbatim_witness :
    (resolveInput "u" (fun _ => "") (Args.mk none none (some "d") none)
      "body" []).uml_path = "d.uml" ∧
    (resolveInput "u" (fun _ => "") (Args.mk none none (some "d") none)
      "body" []).fs.read "d.uml" = some "body" :=
  ⟨(C7_cell_written_verbatim "/w" "u" (fun _ => "") ⟨true, []⟩
      (Args.mk none none (some "d") none) "body" [] rfl).1,
   (C7_cell_written_verbatim "/w" "u" (fun _ => "") ⟨true, []⟩
      (Args.mk none none (some "d") none) "body" [] rfl).2.1⟩

/-- C8, counterexample: with `-j x` and an empty-string
plantuml-path value, the jar path launched is the default constant's
absolute form, not the absolute form of the supplied (empty) path
value, which would be the working directory. -/
theorem C8_jar_path_counterexample :
    (Args.mk none (some "x") none (some "")).plantuml_path = some "" ∧
    (plantuml "/w" "u" (fun _ => "") ⟨true, []⟩
      (Args.mk none (some "x") none (some "")) "t" []).calls =
      [["java", "-splash:no", "-jar", "/usr/local/bin/plantuml.jar",
        "-tsvg", "u.uml"]] ∧
    ¬ abspath "/w" "" = "/usr/local/bin/plantuml.jar" := by
  decide

/-- C8 (amended): every invocation routed to the local-jar back end
passes as jar path the absolute form of the plantuml-path value when
that value is non-empty, and of the default constant otherwise; the
passed path is absolute whenever the working directory is. -/
theorem C8_jar_path_amended (cwd uuid : String) (fetch : String → String)
    (beh : RenderBehavior) (args : Args) (cell : String) (fs0 : FS)
    (hexec : (pyTruthy args.jar || pyTruthy args.plantuml_path) = true) :
    (plantuml cwd uuid fetch beh args cell fs0).calls =
      [["java", "-splash:no", "-jar",
        abspath cwd (if pyTruthy args.plantuml_path then args.plantuml_path.getD ""
                     else PLANTUMLPATH),
        "-tsvg", (resolveInput uuid fetch args cell fs0).uml_path]] ∧
    (isabs cwd = true →
      isabs (abspath cwd (if pyTruthy args.plantuml_path then args.plantuml_path.getD ""
                          else PLANTUMLPATH)) = true) := by
  constructor
  · rw [plantuml_calls_eq, renderDispatch_cmd, hexec]
    rfl
  · intro hc
    exact isabs_abspath cwd _ hc

theorem C8_jar_path_amended_witness :
    (plantuml "/w" "u" (fun _ => "") ⟨true, []⟩
      (Args.mk none (some "x") none none) "t" []).calls =
      [["java", "-splash:no", "-jar", "/usr/local/bin/plantuml.jar",
        "-tsvg", "u.uml"]] ∧
    isabs (abspath "/w" PLANTUMLPATH) = true :=
  ⟨(C8_jar_path_amended "/w" "u" (fun _ => "") ⟨true, []⟩
      (Args.mk none (some "x") none none) "t" [] rfl).1,
   (C8_jar_path_amended "/w" "u" (fun _ => "") ⟨true, []⟩
      (Args.mk none (some "x") none none) "t" [] rfl).2 rfl⟩

end IPlantUML

namespace IPlantUML

/-- C4, counterexample: a local (empty-scheme) file reference whose
name coincides with its derived `.svg` output path is deleted by the
magic after a successful unnamed render, contradicting the claim that
local references are never deleted. -/
theorem C4_local_deleted_counterexample :
    (urlparse "x.svg").scheme = "" ∧
    FS.existsPath ([("x.svg", "A")] : FS) "x.svg" = true ∧
    (plantuml "/w" "u" (fun _ => "") ⟨true, []⟩
      (Args.mk (some "x.svg") none none none) "t"
      ([("x.svg", "A")] : FS)).fs.existsPath "x.svg" = false := by
  decide

/-- C4 (amended): a local or empty-scheme file reference is used in
place and is not deleted by the magic, provided its derived `.svg`
output path differs from the reference itself; a network-scheme
reference is fetched into `<base_name>.uml`, which is deleted after
use when no name was supplied and persists when one was. -/
theorem C4_file_resolution_amended (cwd uuid : String) (fetch : String → String)
    (beh : RenderBehavior) (args : Args) (cell : String) (fs0 : FS)
    (hfile : pyTruthy args.file = true) :
    (((urlparse (args.file.getD "")).scheme = "" ∨
      (urlparse (args.file.getD "")).scheme = "file") →
      (resolveInput uuid fetch args cell fs0).uml_path =
        (urlparse (args.file.getD "")).path ∧
      (resolveInput uuid fetch args cell fs0).retain_uml = true ∧
      (¬ svgName (urlparse (args.file.getD "")).path =
          (urlparse (args.file.getD "")).path →
        (plantuml cwd uuid fetch beh args cell fs0).fs.existsPath
          (urlparse (args.file.getD "")).path =
        (applyCreated beh (resolveInput uuid fetch args cell fs0).fs).existsPath
          (urlparse (args.file.getD "")).path)) ∧
    (¬ ((urlparse (args.file.getD "")).scheme = "" ∨
      (urlparse (args.file.getD "")).scheme = "file") →
      (resolveInput uuid fetch args cell fs0).uml_path =
        (if pyTruthy args.name then args.name.getD "" else uuid) ++ ".uml" ∧
      (resolveInput uuid fetch args cell fs0).fs.read
        ((if pyTruthy args.name then args.name.getD "" else uuid) ++ ".uml") =
        some (fetch (args.file.getD "")) ∧
      (args.name = none →
        (plantuml cwd uuid fetch beh args cell fs0).fs.existsPath
          ((if pyTruthy args.name then args.name.getD "" else uuid) ++ ".uml") =
          false) ∧
      (args.name.isSome = true →
        (plantuml cwd uuid fetch beh args cell fs0).fs.existsPath
          ((if pyTruthy args.name then args.name.getD "" else uuid) ++ ".uml") =
          true)) := by
  constructor
  · intro hsch
    have hr := resolveInput_file_local uuid fetch args cell fs0 hfile hsch
    refine ⟨by rw [hr], by rw [hr], ?_⟩
    intro hne
    rw [plantuml_fs_eq, hr]
    dsimp only
    cases hn : args.name.isSome
    · apply finallyClause_frame
      intro s hs
      cases hok : beh.ok
      · rw [hok] at hs
        simp at hs
      · rw [hok] at hs
        have hs2 : svgName (urlparse (args.file.getD "")).path = s := by
          simpa using hs
        rw [← hs2]
        exact hne
    · rw [finallyClause_retained]
  · intro hsch
    have hr := resolveInput_file_network uuid fetch args cell fs0 hfile hsch
    refine ⟨by rw [hr], ?_, ?_, ?_⟩
    · rw [hr]
      exact FS.read_write_self fs0 _ _
    · intro hname
      have hns : args.name.isSome = false := by
        rw [hname]
        rfl
      rw [plantuml_fs_eq, hr, hns]
      dsimp only
      exact finallyClause_uml_removed _ _ _ _
    · intro hn
      rw [plantuml_fs_eq, hr, hn]
      dsimp only
      rw [finallyClause_retained]
      exact existsPath_applyCreated_mono beh _ _ (FS.existsPath_write_self fs0 _ _)

theorem C4_file_resolution_amended_witness :
    (resolveInput "u" (fun _ => "U") (Args.mk (some "/tmp/a.uml") none none none)
      "t" ([("/tmp/a.uml", "U")] : FS)).uml_path = "/tmp/a.uml" ∧
    (resolveInput "u" (fun _ => "U") (Args.mk (some "/tmp/a.uml") none none none)
      "t" ([("/tmp/a.uml", "U")] : FS)).retain_uml = true ∧
    (plantuml "/w" "u" (fun _ => "U") ⟨true, [("a.svg", "S")]⟩
      (Args.mk (some "/tmp/a.uml") none none none) "t"
      ([("/tmp/a.uml", "U")] : FS)).fs.existsPath "/tmp/a.uml" =
    (applyCreated ⟨true, [("a.svg", "S")]⟩
      (resolveInput "u" (fun _ => "U") (Args.mk (some "/tmp/a.uml") none none none)
        "t" ([("/tmp/a.uml", "U")] : FS)).fs).existsPath "/tmp/a.uml" := by
  have h := (C4_file_resolution_amended "/w" "u" (fun _ => "U")
    ⟨true, [("a.svg", "S")]⟩ (Args.mk (some "/tmp/a.uml") none none none) "t"
    ([("/tmp/a.uml", "U")] : FS) rfl).1 (Or.inl rfl)
  exact ⟨h.1, h.2.1, h.2.2 (by decide)⟩

end IPlantUML
